import Mathlib

/-!
Shallow embedding of the request-handling pipeline of `src/worker.ts`
(swimming-api): JSON values, zod-style schema validation, the auth
verifier, the route table, the dispatch function `handler`, and the
`fetch` boundary that attaches CORS headers.
-/

set_option maxRecDepth 4000

/-- A JS number, modelled as an integer-pair rational `num / den` with
`den` positive in every value this development constructs (kept
unnormalized so all operations compute in the kernel). -/
structure JsNum where
  num : Int
  den : Nat
deriving DecidableEq, Repr

/-- The JS number denoted by an integer. -/
def JsNum.ofInt (k : Int) : JsNum := ⟨k, 1⟩

/-- Multiplication of a JS number by a natural constant (used for the
seconds-to-milliseconds conversion `exp * 1000`). -/
def JsNum.mulNat (a : JsNum) (k : Nat) : JsNum := ⟨a.num * k, a.den⟩

/-- Strict `<` on JS numbers (cross multiplication; exact for the
positive denominators this development uses). -/
def JsNum.blt (a b : JsNum) : Bool := a.num * b.den < b.num * a.den

/-- The JS `Number.isInteger` test used by `z.number().int()`. -/
def JsNum.isInt (a : JsNum) : Bool := a.num % (a.den : Int) == 0

/-- The strict positivity test used by `z.number().positive()` (exact for
positive denominators). -/
def JsNum.isPos (a : JsNum) : Bool := 0 < a.num

/-- The rational value a `JsNum` denotes. -/
def JsNum.toRat (a : JsNum) : Rat := (a.num : Rat) / (a.den : Rat)

/-- A JSON value, as produced by `request.json()` / the identity provider.
Numbers are JS numbers. -/
inductive Json where
  | null : Json
  | bool : Bool → Json
  | num : JsNum → Json
  | str : String → Json
  | arr : List Json → Json
  | obj : List (String × Json) → Json

/-- The runtime type name of a JSON value, as zod reports it in
"Expected ..., received ..." messages. -/
def jsonTypeName : Json → String
  | .null => "null"
  | .bool _ => "boolean"
  | .num _ => "number"
  | .str _ => "string"
  | .arr _ => "array"
  | .obj _ => "object"

/-- Key lookup in a JSON object (first binding wins, as the objects this
program validates have unique keys). -/
def jsonLookup (kvs : List (String × Json)) (k : String) : Option Json :=
  (kvs.find? (fun p => p.1 == k)).map (fun p => p.2)

/-- Property access `j.k` on a validated JSON object, as the route handlers
do after schema validation (a missing key, which validation rules out for
the accessed fields, is modelled as `null`). -/
def Json.get (j : Json) (k : String) : Json :=
  match j with
  | .obj kvs => (jsonLookup kvs k).getD .null
  | _ => .null

/-- One element of a zod issue path: an object key or an array index. -/
inductive PathElem where
  | key (s : String)
  | idx (n : Nat)
deriving DecidableEq, Repr

/-- A single zod validation issue: the path of the violated field and the
reason message. -/
structure Issue where
  path : List PathElem
  message : String
deriving DecidableEq, Repr

/-- Renders an issue path the way `i.path.join(".")` does in
`zodErrorToHumanReadable` (array indices are stringified). -/
def renderPathElem : PathElem → String
  | .key s => s
  | .idx n => toString n

/-- Models `Array.prototype.join(sep)`: concatenation with `sep` between
consecutive elements. -/
def joinSep (sep : String) : List String → String
  | [] => ""
  | [x] => x
  | x :: y :: xs => x ++ sep ++ joinSep sep (y :: xs)

/-- The rendered field path of an issue, `i.path.join(".")`. -/
def renderPath (p : List PathElem) : String :=
  joinSep "." (p.map renderPathElem)

/-- The leaf-level zod constructs used by `src/worker.ts` schemas. -/
inductive ZLeaf where
  | zstring
  | zstringMin1 (msg : String)
  | zemail
  | zurl
  | znumberInt (msg : Option String)
  | znumberPos
  | zcoerceNumber
  | zenum (vals : List String)
  | zoptional (inner : ZLeaf)
deriving DecidableEq, Repr

/-- The schema shapes declared in `src/worker.ts`: objects of leaf fields
(`meetSchema`, `swimmerSchema`, `relaySchema`, `googleTokenSchema`) and an
array of such objects (`recordSchema`). -/
inductive ZSchema where
  | zobject (fields : List (String × ZLeaf))
  | zarrayObj (fields : List (String × ZLeaf))
deriving DecidableEq, Repr

/-- Splits a character list at every occurrence of `c`, keeping empty
parts, as `String.prototype.split` does with a one-character separator. -/
def splitOnChar (c : Char) : List Char → List (List Char)
  | [] => [[]]
  | x :: xs =>
    let r := splitOnChar c xs
    if x = c then [] :: r
    else
      match r with
      | [] => [[x]]
      | y :: ys => (x :: y) :: ys

/-- Models `s.split(sep)` for the one-character separators this program
uses. -/
def jsSplit (s : String) (c : Char) : List String :=
  (splitOnChar c s.data).map String.mk

/-- Models `s.startsWith(p)`. -/
def jsStartsWith (s p : String) : Bool :=
  p.data.isPrefixOf s.data

/-- Parses an unsigned decimal digit run, the only numeric strings this
model needs from the JS `Number` coercion. -/
def parseNatAux : List Char → Nat → Option Nat
  | [], acc => some acc
  | c :: cs, acc =>
    if c.isDigit then parseNatAux cs (acc * 10 + (c.toNat - 48)) else none

/-- Approximation of the zod v3 email check used by
`z.string().email()`: a local part and a dotted domain around a single
at-sign. Exact regex details of the library are not load-bearing for any
claim. -/
def isEmailLike (s : String) : Bool :=
  match jsSplit s '@' with
  | [l, d] => !l.data.isEmpty && !d.data.isEmpty && d.data.contains '.'
  | _ => false

/-- Approximation of the zod v3 url check used by `z.string().url()`
(the library delegates to the URL constructor). -/
def isUrlLike (s : String) : Bool :=
  jsStartsWith s "http://" || jsStartsWith s "https://"

/-- Models the JS `Number(v)` coercion performed by `z.coerce.number()`,
returning `none` for NaN outcomes (signs, decimals and exotic numeric
strings are not load-bearing for any claim and are treated as NaN). -/
def jsToNumber? : Json → Option JsNum
  | .num q => some q
  | .str s =>
      match s.data with
      | [] => some (.ofInt 0)
      | l => (parseNatAux l 0).map (fun n => .ofInt (n : Int))
  | .bool b => some (.ofInt (if b then 1 else 0))
  | .null => some (.ofInt 0)
  | _ => none

/-- Issues a single leaf schema reports for a field value (`none` means
the key is absent, zod's `undefined`). Messages follow zod v3 defaults;
custom messages come from the schema. -/
def leafIssues : ZLeaf → Option Json → List Issue
  | .zoptional _, none => []
  | .zoptional inner, some v => leafIssues inner (some v)
  | .zcoerceNumber, none => [⟨[], "Expected number, received nan"⟩]
  | .zcoerceNumber, some v =>
      match jsToNumber? v with
      | some _ => []
      | none => [⟨[], "Expected number, received nan"⟩]
  | _, none => [⟨[], "Required"⟩]
  | .zstring, some v =>
      match v with
      | .str _ => []
      | v => [⟨[], "Expected string, received " ++ jsonTypeName v⟩]
  | .zstringMin1 msg, some v =>
      match v with
      | .str s => if 1 ≤ s.length then [] else [⟨[], msg⟩]
      | v => [⟨[], "Expected string, received " ++ jsonTypeName v⟩]
  | .zemail, some v =>
      match v with
      | .str s => if isEmailLike s then [] else [⟨[], "Invalid email"⟩]
      | v => [⟨[], "Expected string, received " ++ jsonTypeName v⟩]
  | .zurl, some v =>
      match v with
      | .str s => if isUrlLike s then [] else [⟨[], "Invalid url"⟩]
      | v => [⟨[], "Expected string, received " ++ jsonTypeName v⟩]
  | .znumberInt msg, some v =>
      match v with
      | .num q => if q.isInt then [] else [⟨[], msg.getD "Expected integer, received float"⟩]
      | v => [⟨[], "Expected number, received " ++ jsonTypeName v⟩]
  | .znumberPos, some v =>
      match v with
      | .num q => if q.isPos then [] else [⟨[], "Number must be greater than 0"⟩]
      | v => [⟨[], "Expected number, received " ++ jsonTypeName v⟩]
  | .zenum vals, some v =>
      match v with
      | .str s =>
          if s ∈ vals then []
          else [⟨[], "Invalid enum value. Expected "
                  ++ joinSep " | " (vals.map (fun x => "'" ++ x ++ "'"))
                  ++ ", received '" ++ s ++ "'"⟩]
      | v => [⟨[], "Expected string, received " ++ jsonTypeName v⟩]

/-- Prefix every issue path with one path element (descending into a field
or an array element). -/
def prefixIssues (e : PathElem) (l : List Issue) : List Issue :=
  l.map fun i => { i with path := e :: i.path }

/-- All issues of an object shape against a value: every declared field is
checked (zod does not stop at the first violation); unknown keys are
stripped without issues. -/
def fieldsIssues (fields : List (String × ZLeaf)) (kvs : List (String × Json)) : List Issue :=
  fields.flatMap fun kv => prefixIssues (.key kv.1) (leafIssues kv.2 (jsonLookup kvs kv.1))

/-- Issues of an object schema against an arbitrary value. -/
def objIssues (fields : List (String × ZLeaf)) (v : Json) : List Issue :=
  match v with
  | .obj kvs => fieldsIssues fields kvs
  | v => [⟨[], "Expected object, received " ++ jsonTypeName v⟩]

/-- All validation issues `schema.safeParse(v)` collects, over the full
value (full validation, no short-circuit). -/
def collectIssues : ZSchema → Json → List Issue
  | .zobject fields, v => objIssues fields v
  | .zarrayObj fields, .arr xs =>
      (xs.enum).flatMap fun p => prefixIssues (.idx p.1) (objIssues fields p.2)
  | .zarrayObj _, v => [⟨[], "Expected array, received " ++ jsonTypeName v⟩]

/-- Translation of `zodErrorToHumanReadable` (src/worker.ts lines 71-75):
one entry "path: message" per issue, joined with "; ". -/
def zodErrorToHumanReadable (issues : List Issue) : String :=
  joinSep "; " (issues.map fun i => renderPath i.path ++ ": " ++ i.message)

/-- `allowedEvents` (src/worker.ts lines 24-36). -/
def allowedEvents : List String :=
  ["50_free", "50_back", "50_breast", "50_fly", "100_free", "100_back",
   "100_breast", "100_fly", "200_free", "200_im", "500_free"]

/-- `googleTokenSchema` (src/worker.ts lines 12-22). -/
def googleTokenSchema : ZSchema :=
  .zobject
    [("iss", .zstring), ("aud", .zstring), ("sub", .zstring),
     ("email", .zoptional .zemail),
     ("email_verified", .zoptional (.zenum ["true", "false"])),
     ("name", .zoptional .zstring), ("picture", .zoptional .zurl),
     ("iat", .zcoerceNumber), ("exp", .zcoerceNumber)]

/-- `meetSchema` (src/worker.ts lines 38-42). -/
def meetSchema : ZSchema :=
  .zobject
    [("name", .zstringMin1 "Name is required"),
     ("location", .zstringMin1 "Location is required"),
     ("date", .znumberInt (some "Date must be an integer"))]

/-- `recordSchema` (src/worker.ts lines 44-53). -/
def recordSchema : ZSchema :=
  .zarrayObj
    [("meet_id", .znumberInt none), ("swimmer_id", .znumberInt none),
     ("event", .zenum allowedEvents),
     ("type", .zenum ["individual", "relay"]),
     ("start", .zenum ["flat", "relay"]),
     ("time", .znumberPos)]

/-- `swimmerSchema` (src/worker.ts lines 55-58). -/
def swimmerSchema : ZSchema :=
  .zobject
    [("name", .zstringMin1 "Name is required"),
     ("graduating_year", .znumberInt none)]

/-- `relaySchema` (src/worker.ts lines 60-67). -/
def relaySchema : ZSchema :=
  .zobject
    [("time", .znumberPos),
     ("relay_type", .zenum ["200_mr", "200_fr", "400_fr"]),
     ("record_1_id", .znumberInt none), ("record_2_id", .znumberInt none),
     ("record_3_id", .znumberInt none), ("record_4_id", .znumberInt none)]

/-- Modelled from the spec and the error constructor calls in
`src/worker.ts`: the module `./errors` (src/errors.ts) is imported by the
source but is not present under src/. The kinds, their `name` strings and
HTTP statuses follow spec section 7 (MalformedRequest 400, Unauthorized
401, NotFound 404, NoResponse 502 — the spec gives "502/503", modelled
here as 502 —, MalformedResponse 502, InternalDatabase 500). -/
inductive ErrorRes where
  | MalformedRequest (msg : String)
  | Unauthorized (msg : String)
  | NotFound (msg : String)
  | NoResponse (msg : String)
  | MalformedResponse (msg : String)
  | InternalDatabase (msg : String)
deriving DecidableEq, Repr

/-- Modelled from the spec: the HTTP status of each error kind (spec
section 7). -/
def ErrorRes.status : ErrorRes → Nat
  | .MalformedRequest _ => 400
  | .Unauthorized _ => 401
  | .NotFound _ => 404
  | .NoResponse _ => 502
  | .MalformedResponse _ => 502
  | .InternalDatabase _ => 500

/-- Modelled from the spec: `error.name`, the kind name used in the
boundary's error body. -/
def ErrorRes.name : ErrorRes → String
  | .MalformedRequest _ => "MalformedRequest"
  | .Unauthorized _ => "Unauthorized"
  | .NotFound _ => "NotFound"
  | .NoResponse _ => "NoResponse"
  | .MalformedResponse _ => "MalformedResponse"
  | .InternalDatabase _ => "InternalDatabase"

/-- The `error.message` carried by each error value. -/
def ErrorRes.message : ErrorRes → String
  | .MalformedRequest m => m
  | .Unauthorized m => m
  | .NotFound m => m
  | .NoResponse m => m
  | .MalformedResponse m => m
  | .InternalDatabase m => m

/-- Translation of `zodParseWith` (src/worker.ts lines 77-86): safeParse,
then either the typed data or `errFunc` applied to the aggregated
human-readable report. The success value is the input value (the schemas
used here coerce nothing the handlers read). -/
def zodParseWith (s : ZSchema) (errFunc : String → ErrorRes) (j : Json) : Except ErrorRes Json :=
  let iss := collectIssues s j
  if iss.isEmpty then .ok j
  else .error (errFunc (zodErrorToHumanReadable iss))

/-- The typed claims payload produced by validating the identity
provider's JSON against `googleTokenSchema` (src/worker.ts lines 12-22);
`email_verified` is kept as the optional literal string the schema
enumerates, since the business checks compare it with `"true"`. -/
structure GoogleToken where
  iss : String
  aud : String
  sub : String
  email : Option String
  email_verified : Option String
  name : Option String
  picture : Option String
  iat : JsNum
  exp : JsNum
deriving DecidableEq, Repr

/-- `allowedEmails` (src/worker.ts line 246), the static admin
allow-list local to `verifyAuth`. -/
def allowedEmails : List String := ["ryanyun2010@gmail.com"]

/-- Translation of the business-check stage of `verifyAuth`
(src/worker.ts lines 252-262): audience, email_verified, email presence,
issuer, expiry against `Date.now()` (modelled as the integer `now` in
milliseconds), allow-list; first failure wins. -/
def businessChecks (clientId : String) (now : Int) (p : GoogleToken) : Except ErrorRes String :=
  if p.aud ≠ clientId then
    .error (.Unauthorized "Authorization Token gave Incorrect Audience")
  else if p.email_verified ≠ some "true" then
    .error (.Unauthorized "Authentication Token gave an Email which could not be verified")
  else
    match p.email with
    | none => .error (.Unauthorized "Authentication Token did not correspond to an Email")
    | some em =>
      if p.iss ≠ "https://accounts.google.com" ∧ p.iss ≠ "accounts.google.com" then
        .error (.Unauthorized "Invalid token issuer")
      else if (p.exp.mulNat 1000).blt (.ofInt now) then
        .error (.Unauthorized "Token expired")
      else if em ∉ allowedEmails then
        .error (.Unauthorized "Email is unauthorized")
      else
        .ok em

/-- Reads a required string field of a validated token payload (the
fallback is unreachable once `googleTokenSchema` validation passed). -/
def jGetStr (j : Json) (k : String) : String :=
  match j.get k with
  | .str s => s
  | _ => ""

/-- Reads an optional string field of a validated token payload. -/
def jGetStrOpt (j : Json) (k : String) : Option String :=
  match j.get k with
  | .str s => some s
  | _ => none

/-- The typed payload extracted from a JSON value that passed
`googleTokenSchema` validation (`iat`/`exp` via the `z.coerce.number()`
coercion; fallbacks are unreachable for validated values). -/
def extractGoogleToken (j : Json) : GoogleToken :=
  { iss := jGetStr j "iss", aud := jGetStr j "aud", sub := jGetStr j "sub",
    email := jGetStrOpt j "email",
    email_verified := jGetStrOpt j "email_verified",
    name := jGetStrOpt j "name", picture := jGetStrOpt j "picture",
    iat := (jsToNumber? (j.get "iat")).getD (.ofInt 0),
    exp := (jsToNumber? (j.get "exp")).getD (.ofInt 0) }

/-- An observable effect of the pipeline: the introspection fetch, reading
and parsing the request body, a schema validation, or a prepared storage
statement. -/
inductive Event where
  | fetchGoogle (token : String)
  | parseBody
  | validate (s : ZSchema)
  | dbQuery (query : String) (binds : List Json)

/-- Whether an event is a storage statement. -/
def Event.isDb : Event → Bool
  | .dbQuery _ _ => true
  | _ => false

/-- A pipeline step outcome paired with the trace of effects it executed:
the shallow embedding of neverthrow's `ResultAsync` together with the
effects the awaited operations perform. -/
def RA (α : Type) : Type := Except ErrorRes α × List Event

/-- `ResultAsync.andThen`: short-circuits on the first error; a skipped
continuation contributes no effects. -/
def RA.andThen {α β : Type} (x : RA α) (f : α → RA β) : RA β :=
  match x with
  | (.error e, tr) => (.error e, tr)
  | (.ok a, tr) =>
    match f a with
    | (r, tr2) => (r, tr ++ tr2)

/-- `ResultAsync.map` on the success value. -/
def RA.mapR {α β : Type} (x : RA α) (f : α → β) : RA β :=
  match x with
  | (.error e, tr) => (.error e, tr)
  | (.ok a, tr) => (.ok (f a), tr)

/-- The environment bindings (src/worker.ts lines 7-10); the D1 database
itself lives in `World`. -/
structure Env where
  GOOGLE_CLIENT_ID : String

/-- Outcome of the identity provider's introspection call for a token:
network failure, unparseable response body, or a JSON claims payload
(failure diagnostics already serialized, as the source stringifies the
caught exception). -/
inductive IntrospectOutcome where
  | fetchFail (e : String)
  | jsonFail (e : String)
  | payload (j : Json)

/-- The external collaborators of one request: the introspection endpoint,
the wall clock `Date.now()` in milliseconds, and the storage engine's
response to a prepared statement with bound parameters (error diagnostics
already serialized, as the source stringifies the caught rejection). -/
structure World where
  introspect : String → IntrospectOutcome
  now : Int
  db : String → List Json → Except String Json

/-- The URL of a request: a parseable URL with its pathname, or the
serialized exception `new URL(request.url)` raises. -/
inductive ReqUrl where
  | valid (pathname : String)
  | invalid (err : String)

/-- An incoming HTTP request: method, URL, Authorization header, and the
outcome of `request.json()` (error side already serialized). -/
structure Request where
  method : String
  url : ReqUrl
  authHeader : Option String
  body : Except String Json

/-- The body of a `Response`: absent (`null`), plain text, or
`JSON.stringify` of a value. -/
inductive RBody where
  | empty
  | text (s : String)
  | jsonStr (v : Json)

/-- A `Response`: status, body, and headers in insertion order. -/
structure HttpResponse where
  status : Nat
  body : RBody
  headers : List (String × String)

/-- A value escaping a route handler: an actual `Response`, or — through
the `any` return type of `queryDB` — the raw D1 result object (the
`POST /meets` handler returns the latter, having no `.map` to a
`Response`). -/
inductive HValue where
  | resp (r : HttpResponse)
  | raw (j : Json)

/-- Translation of `verifyAuth` (src/worker.ts lines 241-263): header
check, token extraction via `split(" ")[1]`, introspection fetch, JSON
parse, `googleTokenSchema` validation, then the business checks. -/
def verifyAuth (req : Request) (env : Env) (w : World) : RA String :=
  match req.authHeader with
  | none => (.error (.Unauthorized "No Authorization header"), [])
  | some h =>
    if jsStartsWith h "Bearer " then
      let token := (jsSplit h ' ').getD 1 ""
      match w.introspect token with
      | .fetchFail e =>
          (.error (.NoResponse ("Failed to fetch Authentication Token info from Google: " ++ e)),
           [.fetchGoogle token])
      | .jsonFail e =>
          (.error (.MalformedResponse ("Failed to parse Authentication Token info JSON recieved from Google: " ++ e)),
           [.fetchGoogle token])
      | .payload j =>
          match zodParseWith googleTokenSchema
              (fun errMsg => .MalformedResponse ("Recivied invalid Google token payload: " ++ errMsg)) j with
          | .error e => (.error e, [.fetchGoogle token, .validate googleTokenSchema])
          | .ok v =>
              (businessChecks env.GOOGLE_CLIENT_ID w.now (extractGoogleToken v),
               [.fetchGoogle token, .validate googleTokenSchema])
    else (.error (.Unauthorized "No Authorization header"), [])

/-- The default error translator of `queryDB` (src/worker.ts line 89). -/
def defaultDbErr (e : String) : ErrorRes :=
  .InternalDatabase ("Failed to query database: " ++ e)

/-- Translation of `queryDB` (src/worker.ts lines 88-97): one prepared
statement with positional binds; an engine rejection is translated by
`errFunc`. -/
def queryDB (w : World) (query : String) (errFunc : String → ErrorRes) (binds : List Json) : RA Json :=
  match w.db query binds with
  | .ok r => (.ok r, [.dbQuery query binds])
  | .error e => (.error (errFunc e), [.dbQuery query binds])

/-- Translation of `returnJSONResponse` (src/worker.ts lines 99-104). -/
def returnJSONResponse (data : Json) (status : Nat) : HttpResponse :=
  { status := status, body := .jsonStr data,
    headers := [("Content-Type", "application/json")] }

/-- The default error translator of `getRequestJSON` (src/worker.ts
line 107). -/
def defaultParseErr (e : String) : ErrorRes :=
  .MalformedRequest ("Failed to parse request JSON: " ++ e)

/-- Translation of `getRequestJSON` (src/worker.ts lines 106-113). -/
def getRequestJSON (req : Request) (errFunc : String → ErrorRes) : RA Json :=
  match req.body with
  | .ok j => (.ok j, [.parseBody])
  | .error e => (.error (errFunc e), [.parseBody])

/-- The validation stage of `getAndParseRequestJSON`: `zodParseWith` as a
pipeline step, recording the validation effect. -/
def zodParseStep (s : ZSchema) (errFunc : String → ErrorRes) (j : Json) : RA Json :=
  match zodParseWith s errFunc j with
  | .ok v => (.ok v, [.validate s])
  | .error e => (.error e, [.validate s])

/-- Translation of `getAndParseRequestJSON` (src/worker.ts lines 115-120)
with the default request-JSON error translator. -/
def getAndParseRequestJSON (req : Request) (s : ZSchema) (zodParseFailErrFunc : String → ErrorRes) : RA Json :=
  (getRequestJSON req defaultParseErr).andThen (zodParseStep s zodParseFailErrFunc)

/-- The statement text of the `GET /` join query (src/worker.ts
lines 126-142). -/
def rootSelectQuery : String :=
  "\n\t\t\tSELECT\n\t\t\tr.id,\n\t\t\tr.swimmer_id,\n\t\t\tr.event,\n\t\t\tr.type,\n\t\t\tr.time,\n\t\t\tr.start,\n\t\t\tm.name AS meet_name,\n\t\t\tm.location AS meet_location,\n\t\t\tm.date AS meet_date,\n\t\t\ts.name AS swimmer_name,\n\t\t\ts.graduating_year AS swimmer_year\n\t\t\tFROM records r\n\t\t\tJOIN meets m ON r.meet_id = m.id\n\t\t\tJOIN swimmers s ON r.swimmer_id = s.id\n\t\t\tORDER BY m.date DESC, r.time ASC"

/-- `GET /` (src/worker.ts lines 126-143). -/
def routeGetRoot (_req : Request) (_env : Env) (w : World) : RA HValue :=
  (queryDB w rootSelectQuery defaultDbErr []).mapR
    (fun res => .resp (returnJSONResponse res 200))

/-- The statement text of the `GET /meets` query (src/worker.ts
lines 147-150). -/
def meetsSelectQuery : String :=
  "\n\t\t\tSELECT id, name, location, date\n\t\t\tFROM meets\n\t\t\tORDER BY date DESC "

/-- `GET /meets` (src/worker.ts lines 147-151). -/
def routeGetMeets (_req : Request) (_env : Env) (w : World) : RA HValue :=
  (queryDB w meetsSelectQuery defaultDbErr []).mapR
    (fun res => .resp (returnJSONResponse res 200))

/-- The statement text of the `POST /meets` insert (src/worker.ts
lines 157-159). -/
def meetsInsertQuery : String :=
  "\n\t\t\tINSERT INTO meets (name, location, date)\n\t\t\tVALUES (?, ?, ?)"

/-- `POST /meets` (src/worker.ts lines 155-161): auth, parse + validate,
insert. The insertion result is returned unmapped — unlike the other POST
routes there is no `.map` to a 201 `Response`, so the raw D1 result
escapes through the `any` return type of `queryDB`; `HValue.raw` records
that. -/
def postMeets (req : Request) (env : Env) (w : World) : RA HValue :=
  (verifyAuth req env w).andThen fun _ =>
  (getAndParseRequestJSON req meetSchema
      (fun errMsg => .MalformedRequest ("Given invalid meet data: " ++ errMsg))).andThen fun json =>
  (queryDB w meetsInsertQuery
      (fun e => .InternalDatabase ("Meet database insertion failed: " ++ e))
      [json.get "name", json.get "location", json.get "date"]).mapR
    (fun r => .raw r)

/-- The statement text of the `GET /records` query (src/worker.ts
lines 165-168). -/
def recordsSelectQuery : String :=
  "\n\t\t\tSELECT *\t\t\t\n\t\t\tFROM records\n\t\t\tORDER BY id DESC "

/-- `GET /records` (src/worker.ts lines 165-169). -/
def routeGetRecords (_req : Request) (_env : Env) (w : World) : RA HValue :=
  (queryDB w recordsSelectQuery defaultDbErr []).mapR
    (fun res => .resp (returnJSONResponse res 200))

/-- `json.map(() => "(?, ?, ?, ?, ?, ?)").join(", ")` of the `POST
/records` handler (src/worker.ts line 177). -/
def recordsPlaceholders (elems : List Json) : String :=
  joinSep ", " (elems.map (fun _ => "(?, ?, ?, ?, ?, ?)"))

/-- `json.flatMap((record) => [...])` of the `POST /records` handler
(src/worker.ts lines 178-185): row-major, in column order meet_id,
swimmer_id, event, type, time, start. -/
def recordsValues (elems : List Json) : List Json :=
  elems.flatMap fun record =>
    [record.get "meet_id", record.get "swimmer_id", record.get "event",
     record.get "type", record.get "time", record.get "start"]

/-- The statement text of the `POST /records` multi-row insert
(src/worker.ts lines 186-189). -/
def recordsInsertQuery (elems : List Json) : String :=
  "\n\t\t\t\t\tINSERT INTO records\n\t\t\t\t\t(meet_id, swimmer_id, event, type, time, start)\n\t\t\t\t\tVALUES " ++ recordsPlaceholders elems

/-- `POST /records` (src/worker.ts lines 173-192): auth, parse + validate
the batch, one multi-row insert, 201 on success. -/
def postRecords (req : Request) (env : Env) (w : World) : RA HValue :=
  (verifyAuth req env w).andThen fun _ =>
  (getAndParseRequestJSON req recordSchema
      (fun errMsg => .MalformedRequest ("Given invalid record data: " ++ errMsg))).andThen fun json =>
  let elems := match json with | .arr xs => xs | _ => []
  (queryDB w (recordsInsertQuery elems)
      (fun e => .InternalDatabase ("Records database insertion failed: " ++ e))
      (recordsValues elems)).mapR
    (fun _ => .resp { status := 201, body := .text "Records sucessfully added", headers := [] })

/-- The statement text of the `GET /swimmers` query (src/worker.ts
lines 196-199). -/
def swimmersSelectQuery : String :=
  "\n\t\t\tSELECT id, name, graduating_year\n\t\t\tFROM swimmers\n\t\t\tORDER BY id ASC "

/-- `GET /swimmers` (src/worker.ts lines 196-200). -/
def routeGetSwimmers (_req : Request) (_env : Env) (w : World) : RA HValue :=
  (queryDB w swimmersSelectQuery defaultDbErr []).mapR
    (fun res => .resp (returnJSONResponse res 200))

/-- The statement text of the `POST /swimmers` insert (src/worker.ts
lines 206-209). -/
def swimmersInsertQuery : String :=
  "\n\t\t\t\tINSERT INTO swimmers\n\t\t\t\t(name, graduating_year)\n\t\t\t\tVALUES (?, ?)"

/-- `POST /swimmers` (src/worker.ts lines 204-213). -/
def postSwimmers (req : Request) (env : Env) (w : World) : RA HValue :=
  (verifyAuth req env w).andThen fun _ =>
  (getAndParseRequestJSON req swimmerSchema
      (fun errMsg => .MalformedRequest ("Given invalid swimmer data: " ++ errMsg))).andThen fun json =>
  (queryDB w swimmersInsertQuery
      (fun e => .InternalDatabase ("Swimmers database insertion failed: " ++ e))
      [json.get "name", json.get "graduating_year"]).mapR
    (fun _ => .resp { status := 201, body := .text "Swimmer added", headers := [] })

/-- The statement text of the `GET /recent_meets` query (src/worker.ts
lines 217-221). -/
def recentMeetsSelectQuery : String :=
  "\n\t\t\t\tSELECT id, name, location, date\n\t\t\t\tFROM meets\n\t\t\t\tORDER BY date DESC\n\t\t\t\tLIMIT 5 "

/-- `GET /recent_meets` (src/worker.ts lines 217-222). -/
def routeGetRecentMeets (_req : Request) (_env : Env) (w : World) : RA HValue :=
  (queryDB w recentMeetsSelectQuery defaultDbErr []).mapR
    (fun res => .resp (returnJSONResponse res 200))

/-- `POST /verify` (src/worker.ts lines 224-228): auth only, then a JSON
response with the verified email (default status 200). -/
def postVerify (req : Request) (env : Env) (w : World) : RA HValue :=
  (verifyAuth req env w).mapR fun email =>
    .resp { status := 200,
            body := .jsonStr (.obj [("allowed", .bool true), ("email", .str email)]),
            headers := [("Content-Type", "application/json")] }

/-- The statement text of the `POST /relays` insert (src/worker.ts
lines 232-235). -/
def relaysInsertQuery : String :=
  "\n\t\t\t\t\tINSERT INTO relays\n\t\t\t\t\t(time, type, record_1_id, record_2_id, record_3_id, record_4_id)\n\t\t\t\t\tVALUES (?, ?, ?, ?, ?, ?)"

/-- `POST /relays` (src/worker.ts lines 230-238). -/
def postRelays (req : Request) (env : Env) (w : World) : RA HValue :=
  (verifyAuth req env w).andThen fun _ =>
  (getAndParseRequestJSON req relaySchema
      (fun errMsg => .MalformedRequest ("Given invalid relay data: " ++ errMsg))).andThen fun json =>
  (queryDB w relaysInsertQuery
      (fun e => .InternalDatabase ("Relays database insertion failed: " ++ e))
      [json.get "time", json.get "relay_type", json.get "record_1_id",
       json.get "record_2_id", json.get "record_3_id", json.get "record_4_id"]).mapR
    (fun _ => .resp { status := 201, body := .text "Relay added", headers := [] })

/-- The dispatch table `routes` (src/worker.ts lines 124-239), keyed by
the exact string "METHOD /path", in source order. -/
def routes : List (String × (Request → Env → World → RA HValue)) :=
  [("GET /", routeGetRoot),
   ("GET /meets", routeGetMeets),
   ("POST /meets", postMeets),
   ("GET /records", routeGetRecords),
   ("POST /records", postRecords),
   ("GET /swimmers", routeGetSwimmers),
   ("POST /swimmers", postSwimmers),
   ("GET /recent_meets", routeGetRecentMeets),
   ("POST /verify", postVerify),
   ("POST /relays", postRelays)]

/-- Translation of `handler` (src/worker.ts lines 266-284): URL parse,
the OPTIONS preflight short-circuit, then exact-key table lookup with a
NotFound fallback. -/
def handler (req : Request) (env : Env) (w : World) : RA HValue :=
  match req.url with
  | .invalid e => (.error (.MalformedRequest ("Invalid URL: " ++ e)), [])
  | .valid pathname =>
    if req.method = "OPTIONS" then
      (.ok (.resp { status := 204, body := .empty, headers := [] }), [])
    else
      let key := req.method ++ " " ++ pathname
      match routes.find? (fun kv => kv.1 == key) with
      | some kv => kv.2 req env w
      | none => (.error (.NotFound ("Endpoint \"" ++ key ++ "\" not found")), [])

/-- `Headers.set`: replace an existing header of that name, else append. -/
def setHeader (hs : List (String × String)) (k v : String) : List (String × String) :=
  if hs.any (fun p => p.1 == k) then
    hs.map (fun p => if p.1 == k then (k, v) else p)
  else hs ++ [(k, v)]

/-- The `withCors` response decorator of the boundary (src/worker.ts
lines 288-302). -/
def withCors (r : HttpResponse) : HttpResponse :=
  { r with headers :=
      (setHeader
        (setHeader
          (setHeader r.headers "Access-Control-Allow-Origin" "https://nuevaswimming.pages.dev")
          "Access-Control-Allow-Methods" "GET, POST, OPTIONS")
        "Access-Control-Allow-Headers" "Content-Type, Authorization") }

/-- Translation of the exported `fetch` boundary (src/worker.ts
lines 286-308): on success the handler's value gets the CORS headers; on
error a fresh response `name ++ ": " ++ message` with the kind's status
gets them. A success value that is not a `Response` (the raw D1 result of
`POST /meets`) makes `withCors` mutate headers on a non-Response, which
faults — modelled as `none`, no response returned. -/
def workerFetch (req : Request) (env : Env) (w : World) : Option HttpResponse :=
  match (handler req env w).1 with
  | .ok (.resp r) => some (withCors r)
  | .ok (.raw _) => none
  | .error e =>
      some (withCors { status := e.status, body := .text (e.name ++ ": " ++ e.message),
                       headers := [] })

/-- An element of a joined list occurs verbatim inside the join. -/
theorem joinSep_mem_split (sep : String) (l : List String) (s : String) (h : s ∈ l) :
    ∃ a b, joinSep sep l = a ++ s ++ b := by
  induction l with
  | nil => cases h
  | cons x xs ih =>
    cases h with
    | head =>
      cases xs with
      | nil =>
        exact ⟨"", "", by simp [joinSep, String.append_empty, String.empty_append]⟩
      | cons y ys =>
        exact ⟨"", sep ++ joinSep sep (y :: ys),
          by simp [joinSep, String.empty_append, String.append_assoc]⟩
    | tail _ hmem =>
      obtain ⟨a, b, hab⟩ := ih hmem
      cases xs with
      | nil => cases hmem
      | cons y ys =>
        exact ⟨x ++ sep ++ a, b, by simp [joinSep, hab, String.append_assoc]⟩

/-- C5: for every schema and input value, the validator is total, accepts
exactly when no field is violated, on failure reports the aggregation of
all violations as "path: reason" entries joined by "; " (each violated
field's entry occurring verbatim in the message), and collects issues
over all object fields and all array elements rather than stopping at the
first violation. -/
theorem c5_validator_full_aggregation :
    ∀ (s : ZSchema) (errFunc : String → ErrorRes) (j : Json),
      (zodParseWith s errFunc j = .ok j ↔ collectIssues s j = [])
      ∧ (collectIssues s j ≠ [] →
          zodParseWith s errFunc j =
            .error (errFunc (joinSep "; " ((collectIssues s j).map
              (fun i => renderPath i.path ++ ": " ++ i.message)))))
      ∧ (∀ i ∈ collectIssues s j, ∃ a b,
          zodErrorToHumanReadable (collectIssues s j)
            = a ++ (renderPath i.path ++ ": " ++ i.message) ++ b)
      ∧ (∀ fields kvs, s = .zobject fields → j = .obj kvs →
          collectIssues s j = fields.flatMap (fun kv =>
            prefixIssues (.key kv.1) (leafIssues kv.2 (jsonLookup kvs kv.1))))
      ∧ (∀ fields xs, s = .zarrayObj fields → j = .arr xs →
          collectIssues s j = (xs.enum).flatMap (fun p =>
            prefixIssues (.idx p.1) (objIssues fields p.2))) := by
  intro s errFunc j
  refine ⟨?_, ?_, ?_, ?_, ?_⟩
  · cases hi : collectIssues s j with
    | nil => simp [zodParseWith, hi]
    | cons x xs => simp [zodParseWith, hi]
  · intro hne
    cases hi : collectIssues s j with
    | nil => exact absurd hi hne
    | cons x xs =>
      simp [zodParseWith, zodErrorToHumanReadable, hi]
  · intro i hi
    have hmem : (renderPath i.path ++ ": " ++ i.message)
        ∈ (collectIssues s j).map (fun i => renderPath i.path ++ ": " ++ i.message) :=
      List.mem_map_of_mem _ hi
    simpa [zodErrorToHumanReadable] using
      joinSep_mem_split "; " _ _ hmem
  · intro fields kvs hs hj
    subst hs; subst hj
    simp [collectIssues, objIssues, fieldsIssues]
  · intro fields xs hs hj
    subst hs; subst hj
    simp [collectIssues]

/-- The semantically invalid meet payload of the spec's example (empty
name, valid location, integer date). -/
def invalidMeetBody : Json :=
  .obj [("name", .str ""), ("location", .str "Pool"), ("date", .num (.ofInt 20240101))]

/-- C5 witness: the validator applied to the spec's invalid meet payload
produces the aggregated error, and the violated field's entry occurs
verbatim in the report. -/
theorem c5_validator_full_aggregation_witness :
    zodParseWith meetSchema
        (fun errMsg => .MalformedRequest ("Given invalid meet data: " ++ errMsg))
        invalidMeetBody
      = .error (.MalformedRequest "Given invalid meet data: name: Name is required")
    ∧ ∃ a b, zodErrorToHumanReadable (collectIssues meetSchema invalidMeetBody)
        = a ++ "name: Name is required" ++ b := by
  have h := c5_validator_full_aggregation meetSchema
    (fun errMsg => .MalformedRequest ("Given invalid meet data: " ++ errMsg)) invalidMeetBody
  exact ⟨h.2.1 (by decide), h.2.2.1 ⟨[.key "name"], "Name is required"⟩ (by decide)⟩

/-- The spec's ordered business-check list (section 4.2 step 6): the six
checks in the documented order, each paired with its failure value. -/
def orderedBusinessChecks (clientId : String) (now : Int) (p : GoogleToken) : List (Bool × ErrorRes) :=
  [(decide (p.aud ≠ clientId),
      .Unauthorized "Authorization Token gave Incorrect Audience"),
   (decide (p.email_verified ≠ some "true"),
      .Unauthorized "Authentication Token gave an Email which could not be verified"),
   (decide (p.email = none),
      .Unauthorized "Authentication Token did not correspond to an Email"),
   (decide (p.iss ≠ "https://accounts.google.com" ∧ p.iss ≠ "accounts.google.com"),
      .Unauthorized "Invalid token issuer"),
   ((p.exp.mulNat 1000).blt (.ofInt now),
      .Unauthorized "Token expired"),
   (decide (p.email.getD "" ∉ allowedEmails),
      .Unauthorized "Email is unauthorized")]

/-- The error of the first failing check in a check list. -/
def firstFailing : List (Bool × ErrorRes) → Option ErrorRes
  | [] => none
  | (b, e) :: rest => if b then some e else firstFailing rest

/-- C3: the business checks evaluate in the fixed order audience,
email_verified, email presence, issuer, expiry, allow-list, returning the
error of the first failing check; in particular a payload with both a
wrong audience and `email_verified` not equal to "true" yields the
Incorrect Audience error, not the email_verified one. -/
theorem c3_business_check_order :
    ∀ (clientId : String) (now : Int) (p : GoogleToken),
      (businessChecks clientId now p =
        match firstFailing (orderedBusinessChecks clientId now p) with
        | some e => .error e
        | none => .ok (p.email.getD ""))
      ∧ (p.aud ≠ clientId → p.email_verified ≠ some "true" →
          businessChecks clientId now p
            = .error (.Unauthorized "Authorization Token gave Incorrect Audience")) := by
  intro clientId now p
  constructor
  · by_cases h1 : p.aud = clientId
    · by_cases h2 : p.email_verified = some "true"
      · cases he : p.email with
        | none =>
          simp [businessChecks, orderedBusinessChecks, firstFailing, h1, h2, he]
        | some em =>
          by_cases h4 : p.iss ≠ "https://accounts.google.com" ∧ p.iss ≠ "accounts.google.com"
          · simp [businessChecks, orderedBusinessChecks, firstFailing, h1, h2, he, h4]
          · cases h5 : (p.exp.mulNat 1000).blt (.ofInt now) with
            | true =>
              simp [businessChecks, orderedBusinessChecks, firstFailing, h1, h2, he, h4, h5]
            | false =>
              by_cases h6 : em ∈ allowedEmails
              · simp [businessChecks, orderedBusinessChecks, firstFailing, h1, h2, he, h4, h5, h6]
              · simp [businessChecks, orderedBusinessChecks, firstFailing, h1, h2, he, h4, h5, h6]
      · simp [businessChecks, orderedBusinessChecks, firstFailing, h1, h2]
    · simp [businessChecks, orderedBusinessChecks, firstFailing, h1]
  · intro ha hb
    simp [businessChecks, ha]

/-- A claims payload whose audience is wrong and whose email is not
verified, both at once. -/
def doublyInvalidPayload : GoogleToken :=
  { iss := "accounts.google.com", aud := "wrong", sub := "s",
    email := some "ryanyun2010@gmail.com", email_verified := some "false",
    name := none, picture := none, iat := .ofInt 1, exp := .ofInt 1800000000 }

/-- C3 witness: on the doubly invalid payload the audience error
surfaces. -/
theorem c3_business_check_order_witness :
    businessChecks "cid" 1700000000000 doublyInvalidPayload
      = .error (.Unauthorized "Authorization Token gave Incorrect Audience") :=
  (c3_business_check_order "cid" 1700000000000 doublyInvalidPayload).2
    (by decide) (by decide)

/-- A fully valid admin payload whose expiry, converted to milliseconds,
is exactly the current wall-clock instant. -/
def boundaryExpiryPayload : GoogleToken :=
  { iss := "accounts.google.com", aud := "cid", sub := "s",
    email := some "ryanyun2010@gmail.com", email_verified := some "true",
    name := none, picture := none, iat := .ofInt 1, exp := .ofInt 5 }

/-- C4 counterexample: with `exp * 1000` exactly equal to the current
time (5 * 1000 = 5000 = now), the code does NOT return the Token expired
error — the check `exp * 1000 < Date.now()` passes on equality and the
payload is accepted, contradicting the claim that equality is rejected. -/
theorem c4_expiry_counterexample :
    (boundaryExpiryPayload.exp.mulNat 1000) = JsNum.ofInt 5000
    ∧ businessChecks "cid" 5000 boundaryExpiryPayload = .ok "ryanyun2010@gmail.com"
    ∧ businessChecks "cid" 5000 boundaryExpiryPayload
        ≠ .error (.Unauthorized "Token expired") :=
  ⟨rfl, rfl, fun h => Except.noConfusion
    ((show businessChecks "cid" 5000 boundaryExpiryPayload
        = Except.ok "ryanyun2010@gmail.com" from rfl).symm.trans h)⟩

/-- C4 (amended): for a payload reaching the expiry check, verifyAuth
fails with Token expired exactly when `exp * 1000` is strictly BELOW the
current time; `exp * 1000` equal to the current time passes the check
(the code requires `exp * 1000 >= Date.now()`, not strict excess). -/
theorem c4_expiry_is_non_strict (clientId : String) (now : Int) (p : GoogleToken)
    (h1 : p.aud = clientId) (h2 : p.email_verified = some "true")
    (h3 : ∃ em, p.email = some em)
    (h4 : p.iss = "https://accounts.google.com" ∨ p.iss = "accounts.google.com") :
    businessChecks clientId now p = .error (.Unauthorized "Token expired")
      ↔ (p.exp.mulNat 1000).blt (.ofInt now) = true := by
  obtain ⟨em, he⟩ := h3
  have h4' : ¬(p.iss ≠ "https://accounts.google.com" ∧ p.iss ≠ "accounts.google.com") := by
    rcases h4 with h | h <;> simp [h]
  cases h5 : (p.exp.mulNat 1000).blt (.ofInt now) with
  | true => simp [businessChecks, h1, h2, he, h4', h5]
  | false =>
    by_cases h6 : em ∈ allowedEmails
    · simp [businessChecks, h1, h2, he, h4', h5, h6]
    · simp [businessChecks, h1, h2, he, h4', h5, h6]

/-- An admin payload that expired one second before the current time. -/
def expiredPayload : GoogleToken :=
  { iss := "accounts.google.com", aud := "cid", sub := "s",
    email := some "ryanyun2010@gmail.com", email_verified := some "true",
    name := none, picture := none, iat := .ofInt 1, exp := .ofInt 4 }

/-- C4 witness: the amended equivalence applied to a concretely expired
payload (4 * 1000 < 5000). -/
theorem c4_expiry_is_non_strict_witness :
    businessChecks "cid" 5000 expiredPayload
      = .error (.Unauthorized "Token expired") :=
  (c4_expiry_is_non_strict "cid" 5000 expiredPayload rfl rfl
    ⟨"ryanyun2010@gmail.com", rfl⟩ (Or.inr rfl)).mpr (by decide)

/-- A request whose Authorization header is absent or lacks the literal
"Bearer " prefix fails verifyAuth immediately, with an empty effect
trace. -/
theorem verifyAuth_no_bearer (req : Request) (env : Env) (w : World)
    (hb : ∀ s, req.authHeader = some s → jsStartsWith s "Bearer " = false) :
    verifyAuth req env w = (.error (.Unauthorized "No Authorization header"), []) := by
  cases hah : req.authHeader with
  | none => simp [verifyAuth, hah]
  | some s => simp [verifyAuth, hah, hb s hah]

/-- The pathnames of the five write routes. -/
def writePaths : List String := ["/meets", "/records", "/swimmers", "/relays", "/verify"]

/-- C2: every POST to a write route whose Authorization header is absent
or does not start with "Bearer " ends as Unauthorized("No Authorization
header") (status 401) with an empty effect trace — no body parse, no
schema validation, no storage statement. -/
theorem c2_missing_auth_short_circuits (req : Request) (env : Env) (w : World) (p : String)
    (hu : req.url = .valid p) (hm : req.method = "POST") (hp : p ∈ writePaths)
    (hb : ∀ s, req.authHeader = some s → jsStartsWith s "Bearer " = false) :
    handler req env w = (.error (.Unauthorized "No Authorization header"), [])
    ∧ (ErrorRes.Unauthorized "No Authorization header").status = 401 := by
  have hva := verifyAuth_no_bearer req env w hb
  refine ⟨?_, rfl⟩
  obtain ⟨m, u, ah, bd⟩ := req
  simp only at hu hm
  subst hu; subst hm
  fin_cases hp <;>
    simp [handler, routes, postMeets, postRecords, postSwimmers, postRelays, postVerify,
      hva, RA.andThen, RA.mapR]

/-- A POST /records request carrying no Authorization header at all. -/
def noAuthRecordsReq : Request :=
  { method := "POST", url := .valid "/records", authHeader := none,
    body := .ok (.arr []) }

/-- An arbitrary concrete environment for witnesses. -/
def witnessEnv : Env := { GOOGLE_CLIENT_ID := "cid" }

/-- A concrete world whose introspection returns a fixed valid admin
payload and whose storage engine accepts every statement. -/
def okWorld : World :=
  { introspect := fun _ => .payload (.obj
      [("iss", .str "accounts.google.com"), ("aud", .str "cid"), ("sub", .str "s"),
       ("email", .str "ryanyun2010@gmail.com"), ("email_verified", .str "true"),
       ("iat", .num (.ofInt 1)), ("exp", .num (.ofInt 1800000000))]),
    now := 1700000000000,
    db := fun _ _ => .ok (.obj [("success", .bool true)]) }

/-- C2 witness: the unauthenticated POST /records request is rejected 401
with an empty trace. -/
theorem c2_missing_auth_short_circuits_witness :
    handler noAuthRecordsReq witnessEnv okWorld
      = (.error (.Unauthorized "No Authorization header"), [])
    ∧ (ErrorRes.Unauthorized "No Authorization header").status = 401 :=
  c2_missing_auth_short_circuits noAuthRecordsReq witnessEnv okWorld "/records"
    rfl rfl (by decide) (fun s h => nomatch h)

/-- C7: dispatch: an OPTIONS request gets an empty 204 success with no
effects, for any path; every other request is looked up by the exact
string key "METHOD /path", and a key not present in the table yields
NotFound (status 404) with no effects, regardless of auth header or
body. -/
theorem c7_exact_dispatch :
    (∀ (req : Request) (env : Env) (w : World) (p : String),
      req.url = .valid p → req.method = "OPTIONS" →
      handler req env w = (.ok (.resp { status := 204, body := .empty, headers := [] }), []))
    ∧ (∀ (req : Request) (env : Env) (w : World) (p : String),
      req.url = .valid p → req.method ≠ "OPTIONS" →
      (req.method ++ " " ++ p) ∉ routes.map Prod.fst →
      handler req env w
        = (.error (.NotFound ("Endpoint \"" ++ (req.method ++ " " ++ p) ++ "\" not found")), [])
      ∧ (ErrorRes.NotFound ("Endpoint \"" ++ (req.method ++ " " ++ p) ++ "\" not found")).status = 404) := by
  constructor
  · intro req env w p hu hm
    obtain ⟨m, u, ah, bd⟩ := req
    simp only at hu hm
    subst hu; subst hm
    simp [handler]
  · intro req env w p hu hm hkey
    obtain ⟨m, u, ah, bd⟩ := req
    simp only at hu hm hkey ⊢
    subst hu
    have hfind : routes.find? (fun kv => kv.1 == (m ++ " " ++ p)) = none := by
      rw [List.find?_eq_none]
      intro kv hkv
      simp only [beq_iff_eq]
      intro heq
      exact hkey (heq ▸ List.mem_map_of_mem Prod.fst hkv)
    exact ⟨by simp [handler, hm, hfind], rfl⟩

/-- An OPTIONS request on an arbitrary path. -/
def optionsReq : Request :=
  { method := "OPTIONS", url := .valid "/anything", authHeader := none,
    body := .error "no body" }

/-- A GET whose path carries a trailing slash, so the exact key "GET
/meets/" is absent from the table. -/
def trailingSlashReq : Request :=
  { method := "GET", url := .valid "/meets/", authHeader := none,
    body := .error "no body" }

/-- C7 witness: the OPTIONS preflight returns the empty 204, and the
trailing-slash lookup (no normalization) is NotFound 404. -/
theorem c7_exact_dispatch_witness :
    handler optionsReq witnessEnv okWorld
      = (.ok (.resp { status := 204, body := .empty, headers := [] }), [])
    ∧ handler trailingSlashReq witnessEnv okWorld
        = (.error (.NotFound "Endpoint \"GET /meets/\" not found"), [])
    ∧ (ErrorRes.NotFound "Endpoint \"GET /meets/\" not found").status = 404 := by
  refine ⟨c7_exact_dispatch.1 optionsReq witnessEnv okWorld "/anything" rfl rfl, ?_, ?_⟩
  · exact (c7_exact_dispatch.2 trailingSlashReq witnessEnv okWorld "/meets/" rfl
      (by decide) (by decide)).1
  · exact (c7_exact_dispatch.2 trailingSlashReq witnessEnv okWorld "/meets/" rfl
      (by decide) (by decide)).2

/-- verifyAuth performs no storage statements: its effect trace contains
only the introspection fetch and the token-shape validation. -/
theorem verifyAuth_no_db (req : Request) (env : Env) (w : World) :
    (verifyAuth req env w).2.filter Event.isDb = [] := by
  unfold verifyAuth
  cases req.authHeader with
  | none => rfl
  | some h =>
    by_cases hs : jsStartsWith h "Bearer "
    · simp only [hs, if_true]
      cases w.introspect ((jsSplit h ' ').getD 1 "") with
      | fetchFail e => rfl
      | jsonFail e => rfl
      | payload j =>
        cases hzp : zodParseWith googleTokenSchema
            (fun errMsg => .MalformedResponse ("Recivied invalid Google token payload: " ++ errMsg)) j with
        | error e => simp [hzp, Event.isDb]
        | ok v => simp [hzp, Event.isDb]
    · simp [hs]

/-- C6: a validated non-empty batch of N records makes POST /records
execute exactly one INSERT whose statement carries N parenthesized value
groups and whose flattened bound-parameter list is the row-major flatMap
in column order (meet_id, swimmer_id, event, type, time, start); on
storage success the response has status 201. -/
theorem c6_single_batched_insert (req : Request) (env : Env) (w : World)
    (elems : List Json) (em : String) (atr : List Event) (dres : Json) (N : Nat)
    (hva : verifyAuth req env w = (.ok em, atr))
    (hb : req.body = .ok (.arr elems))
    (hv : collectIssues recordSchema (.arr elems) = [])
    (hn : elems.length = N) (hpos : 0 < N)
    (hdb : w.db (recordsInsertQuery elems) (recordsValues elems) = .ok dres) :
    postRecords req env w
      = (.ok (.resp { status := 201, body := .text "Records sucessfully added", headers := [] }),
         atr ++ [.parseBody, .validate recordSchema,
                 .dbQuery (recordsInsertQuery elems) (recordsValues elems)])
    ∧ recordsPlaceholders elems = joinSep ", " (List.replicate N "(?, ?, ?, ?, ?, ?)")
    ∧ recordsValues elems = elems.flatMap (fun record =>
        [record.get "meet_id", record.get "swimmer_id", record.get "event",
         record.get "type", record.get "time", record.get "start"])
    ∧ (postRecords req env w).2.filter Event.isDb
        = [.dbQuery (recordsInsertQuery elems) (recordsValues elems)] := by
  have hmain : postRecords req env w
      = (.ok (.resp { status := 201, body := .text "Records sucessfully added", headers := [] }),
         atr ++ [.parseBody, .validate recordSchema,
                 .dbQuery (recordsInsertQuery elems) (recordsValues elems)]) := by
    simp [postRecords, hva, RA.andThen, RA.mapR, getAndParseRequestJSON, getRequestJSON, hb,
      zodParseStep, zodParseWith, hv, queryDB, hdb]
  have hatr : atr.filter Event.isDb = [] := by
    have := verifyAuth_no_db req env w
    rw [hva] at this
    exact this
  refine ⟨hmain, ?_, rfl, ?_⟩
  · subst hn
    simp [recordsPlaceholders, List.map_const']
  · rw [hmain]
    simp [List.filter_append, hatr, Event.isDb]

/-- A POST /records request with the two-record batch of the spec's
batched-insert example. -/
def twoRecordBatch : List Json :=
  [.obj [("meet_id", .num (.ofInt 1)), ("swimmer_id", .num (.ofInt 2)),
         ("event", .str "50_free"), ("type", .str "individual"),
         ("start", .str "flat"), ("time", .num ⟨2512, 100⟩)],
   .obj [("meet_id", .num (.ofInt 1)), ("swimmer_id", .num (.ofInt 3)),
         ("event", .str "100_back"), ("type", .str "relay"),
         ("start", .str "relay"), ("time", .num (.ofInt 61))]]

/-- The authorized POST /records request carrying the two-record batch. -/
def twoRecordReq : Request :=
  { method := "POST", url := .valid "/records", authHeader := some "Bearer t",
    body := .ok (.arr twoRecordBatch) }

/-- C6 witness: the two-record batch issues the single two-group INSERT
and answers 201. -/
theorem c6_single_batched_insert_witness :
    postRecords twoRecordReq witnessEnv okWorld
      = (.ok (.resp { status := 201, body := .text "Records sucessfully added", headers := [] }),
         [.fetchGoogle "t", .validate googleTokenSchema, .parseBody, .validate recordSchema,
          .dbQuery (recordsInsertQuery twoRecordBatch) (recordsValues twoRecordBatch)])
    ∧ recordsPlaceholders twoRecordBatch
        = joinSep ", " (List.replicate 2 "(?, ?, ?, ?, ?, ?)") := by
  have h := c6_single_batched_insert twoRecordReq witnessEnv okWorld twoRecordBatch
    "ryanyun2010@gmail.com" [.fetchGoogle "t", .validate googleTokenSchema]
    (.obj [("success", .bool true)]) 2 rfl rfl (by decide) rfl (by decide) rfl
  exact ⟨h.1, h.2.1⟩

/-- A write-route chain whose auth succeeded but whose body fails schema
validation stops at the validation stage: the outcome is the
MalformedRequest built from the aggregated report, and the trace ends at
the validation event — the continuation (the insert) never runs. -/
theorem write_route_parse_fail (req : Request) (env : Env) (w : World) (em : String)
    (atr : List Event) (S : ZSchema) (pre : String) (rest : Json → RA HValue) (bj : Json)
    (hva : verifyAuth req env w = (.ok em, atr)) (hbj : req.body = .ok bj)
    (hiss : collectIssues S bj ≠ []) :
    ((verifyAuth req env w).andThen fun _ =>
        (getAndParseRequestJSON req S (fun errMsg => .MalformedRequest (pre ++ errMsg))).andThen rest)
      = (.error (.MalformedRequest (pre ++ zodErrorToHumanReadable (collectIssues S bj))),
         atr ++ [.parseBody, .validate S]) := by
  cases hI : collectIssues S bj with
  | nil => exact absurd hI hiss
  | cons x xs =>
    simp [hva, RA.andThen, getAndParseRequestJSON, getRequestJSON, hbj, zodParseStep,
      zodParseWith, hI]

/-- Every issue of the report occurs verbatim in the prefixed error
message. -/
theorem message_contains_issue (pre : String) (iss : List Issue) (i : Issue) (hi : i ∈ iss) :
    ∃ a b, pre ++ zodErrorToHumanReadable iss
      = a ++ (renderPath i.path ++ ": " ++ i.message) ++ b := by
  obtain ⟨a, b, hab⟩ := joinSep_mem_split "; "
    (iss.map (fun i => renderPath i.path ++ ": " ++ i.message))
    (renderPath i.path ++ ": " ++ i.message)
    (List.mem_map_of_mem (fun i => renderPath i.path ++ ": " ++ i.message) hi)
  refine ⟨pre ++ a, b, ?_⟩
  unfold zodErrorToHumanReadable
  rw [hab]
  simp [String.append_assoc]

/-- C8: on each write route with a body, a request that passes auth but
whose body fails schema validation ends as a MalformedRequest (status
400) whose message contains every violated field's "path: reason" entry,
and executes no storage statement. -/
theorem c8_invalid_body_rejected (req : Request) (env : Env) (w : World)
    (em : String) (atr : List Event) (bj : Json)
    (hva : verifyAuth req env w = (.ok em, atr)) (hbj : req.body = .ok bj) :
    (collectIssues meetSchema bj ≠ [] →
      postMeets req env w
        = (.error (.MalformedRequest ("Given invalid meet data: "
              ++ zodErrorToHumanReadable (collectIssues meetSchema bj))),
           atr ++ [.parseBody, .validate meetSchema])
      ∧ (postMeets req env w).2.filter Event.isDb = []
      ∧ (ErrorRes.MalformedRequest ("Given invalid meet data: "
            ++ zodErrorToHumanReadable (collectIssues meetSchema bj))).status = 400
      ∧ ∀ i ∈ collectIssues meetSchema bj, ∃ a b,
          "Given invalid meet data: " ++ zodErrorToHumanReadable (collectIssues meetSchema bj)
            = a ++ (renderPath i.path ++ ": " ++ i.message) ++ b)
    ∧ (collectIssues recordSchema bj ≠ [] →
      postRecords req env w
        = (.error (.MalformedRequest ("Given invalid record data: "
              ++ zodErrorToHumanReadable (collectIssues recordSchema bj))),
           atr ++ [.parseBody, .validate recordSchema])
      ∧ (postRecords req env w).2.filter Event.isDb = []
      ∧ (ErrorRes.MalformedRequest ("Given invalid record data: "
            ++ zodErrorToHumanReadable (collectIssues recordSchema bj))).status = 400
      ∧ ∀ i ∈ collectIssues recordSchema bj, ∃ a b,
          "Given invalid record data: " ++ zodErrorToHumanReadable (collectIssues recordSchema bj)
            = a ++ (renderPath i.path ++ ": " ++ i.message) ++ b)
    ∧ (collectIssues swimmerSchema bj ≠ [] →
      postSwimmers req env w
        = (.error (.MalformedRequest ("Given invalid swimmer data: "
              ++ zodErrorToHumanReadable (collectIssues swimmerSchema bj))),
           atr ++ [.parseBody, .validate swimmerSchema])
      ∧ (postSwimmers req env w).2.filter Event.isDb = []
      ∧ ∀ i ∈ collectIssues swimmerSchema bj, ∃ a b,
          "Given invalid swimmer data: " ++ zodErrorToHumanReadable (collectIssues swimmerSchema bj)
            = a ++ (renderPath i.path ++ ": " ++ i.message) ++ b)
    ∧ (collectIssues relaySchema bj ≠ [] →
      postRelays req env w
        = (.error (.MalformedRequest ("Given invalid relay data: "
              ++ zodErrorToHumanReadable (collectIssues relaySchema bj))),
           atr ++ [.parseBody, .validate relaySchema])
      ∧ (postRelays req env w).2.filter Event.isDb = []
      ∧ ∀ i ∈ collectIssues relaySchema bj, ∃ a b,
          "Given invalid relay data: " ++ zodErrorToHumanReadable (collectIssues relaySchema bj)
            = a ++ (renderPath i.path ++ ": " ++ i.message) ++ b) := by
  have hfil : atr.filter Event.isDb = [] := by
    have h := verifyAuth_no_db req env w
    rw [hva] at h
    exact h
  refine ⟨fun hiss => ?_, fun hiss => ?_, fun hiss => ?_, fun hiss => ?_⟩
  · have hm : postMeets req env w
        = (.error (.MalformedRequest ("Given invalid meet data: "
              ++ zodErrorToHumanReadable (collectIssues meetSchema bj))),
           atr ++ [.parseBody, .validate meetSchema]) :=
      write_route_parse_fail req env w em atr meetSchema "Given invalid meet data: " _ bj hva hbj hiss
    refine ⟨hm, ?_, rfl, fun i hi => message_contains_issue _ _ i hi⟩
    rw [hm]
    simp [List.filter_append, hfil, Event.isDb]
  · have hm : postRecords req env w
        = (.error (.MalformedRequest ("Given invalid record data: "
              ++ zodErrorToHumanReadable (collectIssues recordSchema bj))),
           atr ++ [.parseBody, .validate recordSchema]) :=
      write_route_parse_fail req env w em atr recordSchema "Given invalid record data: " _ bj hva hbj hiss
    refine ⟨hm, ?_, rfl, fun i hi => message_contains_issue _ _ i hi⟩
    rw [hm]
    simp [List.filter_append, hfil, Event.isDb]
  · have hm : postSwimmers req env w
        = (.error (.MalformedRequest ("Given invalid swimmer data: "
              ++ zodErrorToHumanReadable (collectIssues swimmerSchema bj))),
           atr ++ [.parseBody, .validate swimmerSchema]) :=
      write_route_parse_fail req env w em atr swimmerSchema "Given invalid swimmer data: " _ bj hva hbj hiss
    refine ⟨hm, ?_, fun i hi => message_contains_issue _ _ i hi⟩
    rw [hm]
    simp [List.filter_append, hfil, Event.isDb]
  · have hm : postRelays req env w
        = (.error (.MalformedRequest ("Given invalid relay data: "
              ++ zodErrorToHumanReadable (collectIssues relaySchema bj))),
           atr ++ [.parseBody, .validate relaySchema]) :=
      write_route_parse_fail req env w em atr relaySchema "Given invalid relay data: " _ bj hva hbj hiss
    refine ⟨hm, ?_, fun i hi => message_contains_issue _ _ i hi⟩
    rw [hm]
    simp [List.filter_append, hfil, Event.isDb]

/-- The spec's invalid record batch: one record whose time is -1. -/
def negativeTimeBatch : Json :=
  .arr [.obj [("meet_id", .num (.ofInt 1)), ("swimmer_id", .num (.ofInt 1)),
              ("event", .str "50_free"), ("type", .str "individual"),
              ("start", .str "flat"), ("time", .num (.ofInt (-1)))]]

/-- The authorized POST /records request carrying the invalid batch. -/
def negativeTimeReq : Request :=
  { method := "POST", url := .valid "/records", authHeader := some "Bearer t",
    body := .ok negativeTimeBatch }

/-- C8 witness: the time -1 batch is rejected 400 on the time field with
no storage statement executed. -/
theorem c8_invalid_body_rejected_witness :
    postRecords negativeTimeReq witnessEnv okWorld
      = (.error (.MalformedRequest "Given invalid record data: 0.time: Number must be greater than 0"),
         [.fetchGoogle "t", .validate googleTokenSchema, .parseBody, .validate recordSchema])
    ∧ (postRecords negativeTimeReq witnessEnv okWorld).2.filter Event.isDb = []
    ∧ (ErrorRes.MalformedRequest "Given invalid record data: 0.time: Number must be greater than 0").status = 400 := by
  have h := (c8_invalid_body_rejected negativeTimeReq witnessEnv okWorld
    "ryanyun2010@gmail.com" [.fetchGoogle "t", .validate googleTokenSchema]
    negativeTimeBatch rfl rfl).2.1 (by decide)
  exact ⟨h.1, h.2.1, h.2.2.1⟩

/-- C10: an authorized POST /records whose body is the empty JSON array
passes validation (the record schema accepts an empty array), builds the
INSERT with zero value groups and an empty parameter list, and hands it
to the storage engine: the outcome is the engine's — a 201 on acceptance
or an InternalDatabase error (status 500) on rejection — and never a
MalformedRequest validation rejection. -/
theorem c10_empty_batch_reaches_storage (req : Request) (env : Env) (w : World)
    (em : String) (atr : List Event)
    (hva : verifyAuth req env w = (.ok em, atr))
    (hb : req.body = .ok (.arr [])) :
    collectIssues recordSchema (.arr []) = []
    ∧ recordsPlaceholders [] = ""
    ∧ recordsValues [] = []
    ∧ (postRecords req env w).2
        = atr ++ [.parseBody, .validate recordSchema, .dbQuery (recordsInsertQuery []) []]
    ∧ ((∃ dres, w.db (recordsInsertQuery []) [] = .ok dres
          ∧ (postRecords req env w).1
              = .ok (.resp { status := 201, body := .text "Records sucessfully added", headers := [] }))
       ∨ (∃ e, w.db (recordsInsertQuery []) [] = .error e
          ∧ (postRecords req env w).1
              = .error (.InternalDatabase ("Records database insertion failed: " ++ e))
          ∧ (ErrorRes.InternalDatabase ("Records database insertion failed: " ++ e)).status = 500))
    ∧ ∀ m, (postRecords req env w).1 ≠ .error (.MalformedRequest m) := by
  have hv : collectIssues recordSchema (.arr []) = [] := rfl
  cases hdb : w.db (recordsInsertQuery []) [] with
  | ok dres =>
    have hmain : postRecords req env w
        = (.ok (.resp { status := 201, body := .text "Records sucessfully added", headers := [] }),
           atr ++ [.parseBody, .validate recordSchema, .dbQuery (recordsInsertQuery []) []]) := by
      simp [postRecords, hva, RA.andThen, RA.mapR, getAndParseRequestJSON, getRequestJSON, hb,
        zodParseStep, zodParseWith, hv, queryDB, hdb, recordsValues]
    refine ⟨rfl, rfl, rfl, by rw [hmain], Or.inl ⟨dres, rfl, by rw [hmain]⟩, ?_⟩
    intro m hcontra
    rw [hmain] at hcontra
    exact Except.noConfusion hcontra
  | error e =>
    have hmain : postRecords req env w
        = (.error (.InternalDatabase ("Records database insertion failed: " ++ e)),
           atr ++ [.parseBody, .validate recordSchema, .dbQuery (recordsInsertQuery []) []]) := by
      simp [postRecords, hva, RA.andThen, RA.mapR, getAndParseRequestJSON, getRequestJSON, hb,
        zodParseStep, zodParseWith, hv, queryDB, hdb, recordsValues]
    refine ⟨rfl, rfl, rfl, by rw [hmain], Or.inr ⟨e, rfl, by rw [hmain], rfl⟩, ?_⟩
    intro m hcontra
    rw [hmain] at hcontra
    simp at hcontra

/-- A world identical to `okWorld` except that the storage engine rejects
every statement (as an engine would the zero-group VALUES clause). -/
def failingDbWorld : World :=
  { introspect := okWorld.introspect, now := okWorld.now,
    db := fun _ _ => .error "no values clause" }

/-- The authorized POST /records request with the empty array body. -/
def emptyBatchReq : Request :=
  { method := "POST", url := .valid "/records", authHeader := some "Bearer t",
    body := .ok (.arr []) }

/-- C10 witness: the empty batch reaches the engine as a zero-group
INSERT with no binds and surfaces the engine failure as InternalDatabase,
not as a validation 400. -/
theorem c10_empty_batch_reaches_storage_witness :
    (postRecords emptyBatchReq witnessEnv failingDbWorld).1
      = .error (.InternalDatabase "Records database insertion failed: no values clause")
    ∧ (postRecords emptyBatchReq witnessEnv failingDbWorld).2
      = [.fetchGoogle "t", .validate googleTokenSchema, .parseBody, .validate recordSchema,
         .dbQuery (recordsInsertQuery []) []] := by
  have h := c10_empty_batch_reaches_storage emptyBatchReq witnessEnv failingDbWorld
    "ryanyun2010@gmail.com" [.fetchGoogle "t", .validate googleTokenSchema] rfl rfl
  refine ⟨?_, h.2.2.2.1⟩
  rcases h.2.2.2.2.1 with ⟨d, hd, _⟩ | ⟨e, he, h1, _⟩
  · exact absurd hd (by simp [failingDbWorld])
  · have he' : "no values clause" = e := by
      simpa [failingDbWorld] using he
    rw [← he'] at h1
    exact h1

/-- A syntactically and semantically valid meet payload. -/
def validMeetBody : Json :=
  .obj [("name", .str "A"), ("location", .str "B"), ("date", .num (.ofInt 1))]

/-- The authorized POST /meets request with the valid body. -/
def authedMeetReq : Request :=
  { method := "POST", url := .valid "/meets", authHeader := some "Bearer t",
    body := .ok validMeetBody }

/-- C1 (code bug): a POST /meets that passes auth, validates, and inserts
successfully does NOT produce a 201 response: alone among the POST
routes, the handler has no `.map` from the insert result to a `Response`
(cf. src/worker.ts lines 155-161 against lines 191, 212, 238), so its
success value is the raw D1 query result escaping through `queryDB`'s
`any` type — contradicting both the route table's declared
`ResultAsync<Response, ErrorRes>` type and the spec's 201 row. -/
theorem c1_meets_success_not_201 :
    handler authedMeetReq witnessEnv okWorld
      = (.ok (.raw (.obj [("success", .bool true)])),
         [.fetchGoogle "t", .validate googleTokenSchema, .parseBody, .validate meetSchema,
          .dbQuery meetsInsertQuery [.str "A", .str "B", .num (.ofInt 1)]])
    ∧ (handler authedMeetReq witnessEnv okWorld).1
        ≠ .ok (.resp { status := 201, body := .text "Meet added", headers := [] }) := by
  refine ⟨rfl, ?_⟩
  intro h
  have h2 : (Except.ok (HValue.raw (Json.obj [("success", Json.bool true)])) : Except ErrorRes HValue)
      = .ok (.resp { status := 201, body := .text "Meet added", headers := [] }) := h
  simp at h2

/-- A header named `k` set to `v` is present after `setHeader hs k v`. -/
theorem setHeader_mem (hs : List (String × String)) (k v : String) :
    (k, v) ∈ setHeader hs k v := by
  unfold setHeader
  split
  · rename_i hany
    rw [List.any_eq_true] at hany
    obtain ⟨p, hp, hpk⟩ := hany
    rw [List.mem_map]
    exact ⟨p, hp, by simp [hpk]⟩
  · simp

/-- Headers under a different name survive `setHeader`. -/
theorem setHeader_mem_of_ne (hs : List (String × String)) (k v k' v' : String)
    (hne : k' ≠ k) (h : (k', v') ∈ hs) : (k', v') ∈ setHeader hs k v := by
  unfold setHeader
  split
  · rw [List.mem_map]
    refine ⟨(k', v'), h, ?_⟩
    simp [show (k' == k) = false from beq_eq_false_iff_ne.mpr hne]
  · exact List.mem_append_left _ h

/-- C9 (amended): whenever the boundary returns a response — on every
tagged-error outcome, and on every success outcome that is an actual
`Response` — it carries the three fixed CORS headers; in the error case
the body is `name ++ ": " ++ message` with the status taken from the
error kind. (The success outcome of POST /meets is not a `Response`, so
there the boundary faults before returning: see the counterexample.) -/
theorem c9_cors_on_returned_responses (req : Request) (env : Env) (w : World) :
    (∀ e, (handler req env w).1 = .error e →
      workerFetch req env w = some
        { status := e.status, body := .text (e.name ++ ": " ++ e.message),
          headers := [("Access-Control-Allow-Origin", "https://nuevaswimming.pages.dev"),
                      ("Access-Control-Allow-Methods", "GET, POST, OPTIONS"),
                      ("Access-Control-Allow-Headers", "Content-Type, Authorization")] })
    ∧ (∀ r, (handler req env w).1 = .ok (.resp r) →
      workerFetch req env w = some (withCors r)
      ∧ ("Access-Control-Allow-Origin", "https://nuevaswimming.pages.dev") ∈ (withCors r).headers
      ∧ ("Access-Control-Allow-Methods", "GET, POST, OPTIONS") ∈ (withCors r).headers
      ∧ ("Access-Control-Allow-Headers", "Content-Type, Authorization") ∈ (withCors r).headers) := by
  constructor
  · intro e he
    simp [workerFetch, he, withCors, setHeader]
  · intro r hr
    refine ⟨by simp [workerFetch, hr], ?_, ?_, ?_⟩
    · show _ ∈ (setHeader (setHeader (setHeader r.headers
        "Access-Control-Allow-Origin" "https://nuevaswimming.pages.dev")
        "Access-Control-Allow-Methods" "GET, POST, OPTIONS")
        "Access-Control-Allow-Headers" "Content-Type, Authorization")
      exact setHeader_mem_of_ne _ _ _ _ _ (by decide)
        (setHeader_mem_of_ne _ _ _ _ _ (by decide) (setHeader_mem _ _ _))
    · show _ ∈ (setHeader (setHeader (setHeader r.headers
        "Access-Control-Allow-Origin" "https://nuevaswimming.pages.dev")
        "Access-Control-Allow-Methods" "GET, POST, OPTIONS")
        "Access-Control-Allow-Headers" "Content-Type, Authorization")
      exact setHeader_mem_of_ne _ _ _ _ _ (by decide) (setHeader_mem _ _ _)
    · show _ ∈ (setHeader (setHeader (setHeader r.headers
        "Access-Control-Allow-Origin" "https://nuevaswimming.pages.dev")
        "Access-Control-Allow-Methods" "GET, POST, OPTIONS")
        "Access-Control-Allow-Headers" "Content-Type, Authorization")
      exact setHeader_mem _ _ _

/-- C9 counterexample: on the successful authorized POST /meets the
handler's success value is the raw D1 result, not a `Response`; the
boundary's header mutation faults on it and no response — in particular
none carrying the CORS headers — is returned. -/
theorem c9_cors_counterexample :
    (handler authedMeetReq witnessEnv okWorld).1
      = .ok (.raw (.obj [("success", .bool true)]))
    ∧ workerFetch authedMeetReq witnessEnv okWorld = none :=
  ⟨rfl, rfl⟩

/-- C9 witness: the 404 outcome of the trailing-slash request is rendered
as "NotFound: ..." with status 404 and the three CORS headers. -/
theorem c9_cors_on_returned_responses_witness :
    workerFetch trailingSlashReq witnessEnv okWorld
      = some { status := 404,
               body := .text "NotFound: Endpoint \"GET /meets/\" not found",
               headers := [("Access-Control-Allow-Origin", "https://nuevaswimming.pages.dev"),
                           ("Access-Control-Allow-Methods", "GET, POST, OPTIONS"),
                           ("Access-Control-Allow-Headers", "Content-Type, Authorization")] } :=
  (c9_cors_on_returned_responses trailingSlashReq witnessEnv okWorld).1
    (.NotFound "Endpoint \"GET /meets/\" not found") rfl
